import Mathlib

/-!
Verification of the sp-obs telemetry pipeline (capture → decode → transform
→ scrub → batch-export) against its natural-language specification.

The Python source is shallowly embedded: pure functions become Lean
functions, byte strings become `List Nat` (each element < 256), Python
`str` becomes Lean `String`, Python dicts become ordered association
lists, and code that can raise returns `Except`.
-/

namespace SpObs

/-! ## Batch queue (spec §3 "Batch Queue", §4.6)

Modelled from the spec: the bounded span queue lives in the
`BatchSpanProcessor` base class that `SpinalSpanProcessor.__init__`
configures with `max_queue_size`; that class is an external dependency and
its body is not under src/.  Per the spec: "`enqueue(span)`: if queue
length == max_queue_size, discard the new span (drop-newest) and return;
else append." -/
def enqueue {α : Type} (cap : Nat) (q : List α) (s : α) : List α :=
  if q.length = cap then q else q ++ [s]

/-- Modelled from the spec: enqueuing a sequence of spans one at a time
into the bounded queue. -/
def enqueueAll {α : Type} (cap : Nat) (q : List α) (ss : List α) : List α :=
  ss.foldl (enqueue cap) q

theorem enqueue_length_le {α : Type} (cap : Nat) (q : List α) (s : α)
    (h : q.length ≤ cap) : (enqueue cap q s).length ≤ cap := by
  unfold enqueue
  split
  · exact h
  · simp only [List.length_append, List.length_singleton]
    omega

theorem enqueueAll_eq_append_take {α : Type} (cap : Nat) (ss : List α) :
    ∀ (q : List α), q.length ≤ cap →
      enqueueAll cap q ss = q ++ ss.take (cap - q.length) := by
  induction ss with
  | nil => intro q _; simp [enqueueAll]
  | cons s ss ih =>
    intro q hq
    show enqueueAll cap (enqueue cap q s) ss = _
    by_cases hfull : q.length = cap
    · rw [show enqueue cap q s = q from if_pos hfull]
      rw [ih q hq, hfull]
      simp
    · have hlt : q.length < cap := lt_of_le_of_ne hq hfull
      rw [show enqueue cap q s = q ++ [s] from if_neg hfull]
      rw [ih (q ++ [s]) (by simp; omega)]
      have htake : cap - q.length = (cap - (q ++ [s]).length) + 1 := by
        simp; omega
      rw [htake]
      simp [List.take_succ_cons]

/-! ## safe_decode (exporter.py lines 206–226)

Byte sequences are `List Nat` with elements < 256; decoded text is a list
of Unicode code points.  `utf8Decode` is strict UTF-8 (RFC 3629: rejects
continuation errors, overlong forms, surrogates, values above U+10FFFF),
`cp1252Decode` is strict Windows-1252 (bytes 0x81, 0x8D, 0x8F, 0x90, 0x9D
are unmapped), `latin1DecodeReplace` is Latin-1 with `errors="replace"`
(total: every byte value 0–255 is a valid Latin-1 code point, so the
replacement handler is never invoked and each byte maps to itself). -/

def isCont (b : Nat) : Bool := 0x80 ≤ b && b ≤ 0xBF

/-- Allowed range of the second byte of a multi-byte UTF-8 sequence,
which depends on the lead byte (excludes overlongs and surrogates). -/
def utf8SecondOK (b b1 : Nat) : Bool :=
  if b = 0xE0 then 0xA0 ≤ b1 && b1 ≤ 0xBF
  else if b = 0xED then 0x80 ≤ b1 && b1 ≤ 0x9F
  else if b = 0xF0 then 0x90 ≤ b1 && b1 ≤ 0xBF
  else if b = 0xF4 then 0x80 ≤ b1 && b1 ≤ 0x8F
  else isCont b1

/-- Strict UTF-8 decoding of a byte sequence to code points; `none`
models Python's `UnicodeDecodeError`. -/
def utf8Decode : List Nat → Option (List Nat)
  | [] => some []
  | b :: rest =>
    if b < 0x80 then (utf8Decode rest).map (b :: ·)
    else if 0xC2 ≤ b && b ≤ 0xDF then
      match rest with
      | b1 :: rest2 =>
        if isCont b1 then
          (utf8Decode rest2).map (((b - 0xC0) * 0x40 + (b1 - 0x80)) :: ·)
        else none
      | [] => none
    else if 0xE0 ≤ b && b ≤ 0xEF then
      match rest with
      | b1 :: b2 :: rest3 =>
        if utf8SecondOK b b1 && isCont b2 then
          (utf8Decode rest3).map
            ((((b - 0xE0) * 0x40 + (b1 - 0x80)) * 0x40 + (b2 - 0x80)) :: ·)
        else none
      | _ => none
    else if 0xF0 ≤ b && b ≤ 0xF4 then
      match rest with
      | b1 :: b2 :: b3 :: rest4 =>
        if utf8SecondOK b b1 && isCont b2 && isCont b3 then
          (utf8Decode rest4).map
            (((((b - 0xF0) * 0x40 + (b1 - 0x80)) * 0x40 + (b2 - 0x80)) * 0x40
               + (b3 - 0x80)) :: ·)
        else none
      | _ => none
    else none

/-- Windows-1252 mapping of a single byte; `none` for the five unmapped
byte values. -/
def cp1252Byte (b : Nat) : Option Nat :=
  if b < 0x80 then some b
  else if 0xA0 ≤ b then some b
  else match b with
    | 0x80 => some 0x20AC
    | 0x82 => some 0x201A
    | 0x83 => some 0x0192
    | 0x84 => some 0x201E
    | 0x85 => some 0x2026
    | 0x86 => some 0x2020
    | 0x87 => some 0x2021
    | 0x88 => some 0x02C6
    | 0x89 => some 0x2030
    | 0x8A => some 0x0160
    | 0x8B => some 0x2039
    | 0x8C => some 0x0152
    | 0x8E => some 0x017D
    | 0x91 => some 0x2018
    | 0x92 => some 0x2019
    | 0x93 => some 0x201C
    | 0x94 => some 0x201D
    | 0x95 => some 0x2022
    | 0x96 => some 0x2013
    | 0x97 => some 0x2014
    | 0x98 => some 0x02DC
    | 0x99 => some 0x2122
    | 0x9A => some 0x0161
    | 0x9B => some 0x203A
    | 0x9C => some 0x0153
    | 0x9E => some 0x017E
    | 0x9F => some 0x0178
    | _ => none

/-- Strict Windows-1252 decoding; `none` models `UnicodeDecodeError`. -/
def cp1252Decode (bs : List Nat) : Option (List Nat) := bs.mapM cp1252Byte

/-- Latin-1 decoding with `errors="replace"`: every byte value 0–255 is a
valid Latin-1 code point equal to itself, so this is total and the
replacement handler never fires. -/
def latin1DecodeReplace (bs : List Nat) : List Nat := bs

/-! ## Scrubber (scrubbing.py)

The scrubber compiles its key patterns with Python `re`.  The patterns in
the source use only literal characters, the optional character class
`[._-]?` and the word-boundary assertion `\b`, so the embedding implements
exactly that regex subset.  `re.IGNORECASE` is modelled by lower-casing
both pattern and subject (all letters involved are ASCII). -/

/-- Token of the regex subset used by scrubbing.py. -/
inductive RTok where
  | lit (c : Char)
  | cls (cs : List Char) (opt : Bool)
  | wordB
deriving DecidableEq

/-- Parsing mode: at top level, or inside a `[...]` class collecting its
characters (in reverse). -/
inductive PMode where
  | top
  | cls (acc : List Char)
deriving DecidableEq

/-- Parse a pattern string of the supported regex subset into tokens.
`\b` turns into a word-boundary token, `[...]` into a class token
(optional when followed by `?`), anything else is a literal.  (Only `\b`
escapes occur in the source's patterns.) -/
def parseGo : PMode → List Char → List RTok
  | .top, [] => []
  | .top, '\\' :: 'b' :: rest => .wordB :: parseGo .top rest
  | .top, '[' :: rest => parseGo (.cls []) rest
  | .top, c :: rest => .lit c :: parseGo .top rest
  | .cls acc, [] => [.cls acc.reverse false]
  | .cls acc, ']' :: '?' :: rest => .cls acc.reverse true :: parseGo .top rest
  | .cls acc, ']' :: rest => .cls acc.reverse false :: parseGo .top rest
  | .cls acc, c :: rest => parseGo (.cls (c :: acc)) rest

def parsePattern (l : List Char) : List RTok := parseGo .top l

/-- ASCII lower-casing of a character list (the `re.IGNORECASE` flag;
every character in the source's patterns and in the keys under study is
ASCII). -/
def lowerChars (l : List Char) : List Char := l.map Char.toLower

/-- Word character for `\b` (ASCII fragment of Python's `\w`). -/
def isWordChar (c : Char) : Bool := c.isAlphanum || c = '_'

/-- A word boundary lies between two positions iff exactly one side is a
word character (an absent side counts as a non-word character). -/
def isBoundary (prev next : Option Char) : Bool :=
  (match prev with | some c => isWordChar c | none => false) ≠
  (match next with | some c => isWordChar c | none => false)

/-- Does the token list match a prefix of `s`?  `prev` is the character
just before the current position (for `\b`). -/
def matchToks : List RTok → Option Char → List Char → Bool
  | [], _, _ => true
  | .wordB :: ts, prev, s => isBoundary prev s.head? && matchToks ts prev s
  | .lit _ :: _, _, [] => false
  | .lit c :: ts, _, x :: xs => c == x && matchToks ts (some x) xs
  | .cls cs opt :: ts, prev, s =>
    (match s with
     | x :: xs => (cs.contains x && matchToks ts (some x) xs)
         || (opt && matchToks ts prev (x :: xs))
     | [] => opt && matchToks ts prev [])

/-- Does the token list match starting at some position of `s`? -/
def searchFrom (ts : List RTok) : Option Char → List Char → Bool
  | prev, s =>
    matchToks ts prev s ||
      (match s with
       | [] => false
       | x :: xs => searchFrom ts (some x) xs)

/-- Model of `re.compile(pat, re.IGNORECASE).search(s) is not None` for
the supported subset. -/
def regexSearch (pat : String) (s : String) : Bool :=
  searchFrom (parsePattern (lowerChars pat.data)) none (lowerChars s.data)

/-- Model of `re.compile("|".join(pats), re.IGNORECASE).search(s)`:
an alternation matches somewhere iff some alternative matches
somewhere. -/
def regexAltSearch (pats : List String) (s : String) : Bool :=
  pats.any (fun p => regexSearch p s)

/-- `DefaultScrubber.SENSITIVE_PATTERNS` (scrubbing.py 8–27). -/
def SENSITIVE_PATTERNS : List String :=
  ["password", "passwd", "secret", "api[._-]?key", "apikey",
   "auth[._-]?token", "access[._-]?token", "private[._-]?key",
   "encryption[._-]?key", "bearer", "credential", "user[._-]?name",
   "first[._-]?name", "last[._-]?name", "email", "email[._-]?address",
   "phone[._-]?number", "ip[._-]?address"]

/-- `DefaultScrubber.PROTECTED_PATTERNS` (scrubbing.py 29–32). -/
def PROTECTED_PATTERNS : List String := ["\\battributes\\b", "spinal"]

/-- The scrubber's state after construction: its sensitive pattern
list (the compiled regex is determined by it). -/
structure DefaultScrubber where
  patterns : List String
deriving DecidableEq

/-- The `ValueError` raised by `DefaultScrubber.__init__`. -/
inductive ScrubConfigErr where
  | protectedPattern (attrib : String)
deriving DecidableEq

/-- `DefaultScrubber.__init__` (scrubbing.py 34–52): copies the default
sensitive patterns; when a non-empty extra list is given, each extra
pattern is searched with the compiled protected regex and the first hit
raises `ValueError`; otherwise the extras extend the sensitive list. -/
def mkDefaultScrubber (extra : Option (List String)) :
    Except ScrubConfigErr DefaultScrubber :=
  match extra with
  | none => .ok ⟨SENSITIVE_PATTERNS⟩
  | some es =>
    if es.isEmpty then .ok ⟨SENSITIVE_PATTERNS⟩
    else
      match es.find? (fun a => regexAltSearch PROTECTED_PATTERNS a) with
      | some a => .error (.protectedPattern a)
      | none => .ok ⟨SENSITIVE_PATTERNS ++ es⟩

/-- `DefaultScrubber._is_sensitive_key` (scrubbing.py 80–81). -/
def isSensitiveKey (sc : DefaultScrubber) (key : String) : Bool :=
  regexAltSearch sc.patterns key

/-- `DefaultScrubber._get_matched_pattern` (scrubbing.py 83–88): when the
compiled pattern matches, `match.string` is returned — this is the whole
searched key, not the pattern that matched. -/
def getMatchedPattern (sc : DefaultScrubber) (key : String) : String :=
  if isSensitiveKey sc key then key else "sensitive pattern"

/-- The redaction marker written for a sensitive key
(scrubbing.py 70). -/
def redactionMarker (sc : DefaultScrubber) (key : String) : String :=
  "[Scrubbed due to " ++ getMatchedPattern sc key ++ "]"

/-- Python attribute values as they appear in span attribute maps:
scalars, byte buffers, nested lists and nested (ordered) dicts. -/
inductive AttrValue where
  | str (s : String)
  | int (n : Int)
  | bool (b : Bool)
  | bytes (bs : List Nat)
  | null
  | list (xs : List AttrValue)
  | dict (m : List (String × AttrValue))

/-- An attribute map: a Python dict embeds as an ordered association
list. -/
def AttrMap : Type := List (String × AttrValue)

mutual
/-- Body of the `for key, value in attributes.items()` loop of
`DefaultScrubber.scrub_attributes` (scrubbing.py 67–78). -/
def scrubMap (sc : DefaultScrubber) (m : List (String × AttrValue)) :
    List (String × AttrValue) :=
  match m with
  | [] => []
  | (k, v) :: rest =>
    (k, if isSensitiveKey sc k then .str (redactionMarker sc k)
        else scrubValForKey sc v) :: scrubMap sc rest

/-- The non-sensitive-key branches of the loop body: nested dicts are
scrubbed recursively, lists have only their dict elements scrubbed,
anything else passes through. -/
def scrubValForKey (sc : DefaultScrubber) (v : AttrValue) : AttrValue :=
  match v with
  | .dict d => .dict (scrubMap sc d)
  | .list l => .list (scrubList sc l)
  | v => v

/-- The list comprehension of scrubbing.py line 74. -/
def scrubList (sc : DefaultScrubber) (l : List AttrValue) :
    List AttrValue :=
  match l with
  | [] => []
  | .dict d :: rest => .dict (scrubMap sc d) :: scrubList sc rest
  | v :: rest => v :: scrubList sc rest
end

/-- `DefaultScrubber.scrub_attributes` (scrubbing.py 54–78); the
`if not attributes` early return yields the same (empty) map. -/
def scrub_attributes (sc : DefaultScrubber) (m : AttrMap) : AttrMap :=
  match m with
  | [] => []
  | m => scrubMap sc m

mutual
theorem scrubMap_idem (sc : DefaultScrubber)
    (m : List (String × AttrValue)) :
    scrubMap sc (scrubMap sc m) = scrubMap sc m := by
  match m with
  | [] => rfl
  | (k, v) :: rest =>
    simp only [scrubMap]
    by_cases h : isSensitiveKey sc k
    · simp only [h, if_true, scrubMap, scrubMap_idem sc rest]
    · simp only [h, if_false, Bool.false_eq_true, scrubMap,
        scrubValForKey_idem sc v, scrubMap_idem sc rest]

theorem scrubValForKey_idem (sc : DefaultScrubber) (v : AttrValue) :
    scrubValForKey sc (scrubValForKey sc v) = scrubValForKey sc v := by
  match v with
  | .dict d => simp only [scrubValForKey, scrubMap_idem sc d]
  | .list l => simp only [scrubValForKey, scrubList_idem sc l]
  | .str s => rfl
  | .int n => rfl
  | .bool b => rfl
  | .bytes bs => rfl
  | .null => rfl

theorem scrubList_idem (sc : DefaultScrubber) (l : List AttrValue) :
    scrubList sc (scrubList sc l) = scrubList sc l := by
  match l with
  | [] => rfl
  | .dict d :: rest =>
    simp only [scrubList, scrubMap_idem sc d, scrubList_idem sc rest]
  | .str s :: rest => simp only [scrubList, scrubList_idem sc rest]
  | .int n :: rest => simp only [scrubList, scrubList_idem sc rest]
  | .bool b :: rest => simp only [scrubList, scrubList_idem sc rest]
  | .bytes bs :: rest => simp only [scrubList, scrubList_idem sc rest]
  | .null :: rest => simp only [scrubList, scrubList_idem sc rest]
  | .list xs :: rest => simp only [scrubList, scrubList_idem sc rest]
end

mutual
/-- Spec-side scrub contract ("for each key: …"), with the redaction
marker amended to name the searched key itself (which is what
`match.string` yields), rather than the offending pattern class: a
sensitive key's value becomes the marker, any other key's value is
handled by shape. -/
def scrubSpecMap (sc : DefaultScrubber) :
    List (String × AttrValue) → List (String × AttrValue)
  | [] => []
  | (k, v) :: rest =>
    (k, if isSensitiveKey sc k then .str ("[Scrubbed due to " ++ k ++ "]")
        else scrubSpecVal sc v) :: scrubSpecMap sc rest

/-- Spec-side treatment of a non-sensitive key's value: nested map →
recurse; list → recurse into map-typed elements only; else unchanged. -/
def scrubSpecVal (sc : DefaultScrubber) (v : AttrValue) : AttrValue :=
  match v with
  | .dict d => .dict (scrubSpecMap sc d)
  | .list l => .list (scrubSpecList sc l)
  | v => v

/-- Spec-side list handling: map-typed elements scrubbed, scalar
elements pass through. -/
def scrubSpecList (sc : DefaultScrubber) : List AttrValue → List AttrValue
  | [] => []
  | .dict d :: rest => .dict (scrubSpecMap sc d) :: scrubSpecList sc rest
  | v :: rest => v :: scrubSpecList sc rest
end

mutual
theorem scrubMap_eq_spec (sc : DefaultScrubber)
    (m : List (String × AttrValue)) : scrubMap sc m = scrubSpecMap sc m := by
  match m with
  | [] => rfl
  | (k, v) :: rest =>
    simp only [scrubMap, scrubSpecMap, scrubMap_eq_spec sc rest]
    by_cases h : isSensitiveKey sc k
    · simp only [h, if_true, redactionMarker, getMatchedPattern]
    · simp only [h, if_false, Bool.false_eq_true,
        scrubValForKey_eq_spec sc v]

theorem scrubValForKey_eq_spec (sc : DefaultScrubber) (v : AttrValue) :
    scrubValForKey sc v = scrubSpecVal sc v := by
  match v with
  | .dict d => simp only [scrubValForKey, scrubSpecVal, scrubMap_eq_spec sc d]
  | .list l => simp only [scrubValForKey, scrubSpecVal, scrubList_eq_spec sc l]
  | .str s => rfl
  | .int n => rfl
  | .bool b => rfl
  | .bytes bs => rfl
  | .null => rfl

theorem scrubList_eq_spec (sc : DefaultScrubber) (l : List AttrValue) :
    scrubList sc l = scrubSpecList sc l := by
  match l with
  | [] => rfl
  | .dict d :: rest =>
    simp only [scrubList, scrubSpecList, scrubMap_eq_spec sc d,
      scrubList_eq_spec sc rest]
  | .str s :: rest =>
    simp only [scrubList, scrubSpecList, scrubList_eq_spec sc rest]
  | .int n :: rest =>
    simp only [scrubList, scrubSpecList, scrubList_eq_spec sc rest]
  | .bool b :: rest =>
    simp only [scrubList, scrubSpecList, scrubList_eq_spec sc rest]
  | .bytes bs :: rest =>
    simp only [scrubList, scrubSpecList, scrubList_eq_spec sc rest]
  | .null :: rest =>
    simp only [scrubList, scrubSpecList, scrubList_eq_spec sc rest]
  | .list xs :: rest =>
    simp only [scrubList, scrubSpecList, scrubList_eq_spec sc rest]
end

/-- C4 (counterexample): for the key `my_apikey123` — sensitive because
the compiled pattern `api[._-]?key` (among others) matches inside it —
the value is replaced by a marker naming the whole key, which is not of
the form `[Scrubbed due to <pattern>]` for any pattern of the compiled
sensitive set, refuting "a redaction marker string naming the offending
pattern class".  (`mkDefaultScrubber none` shows this scrubber is the one
the default construction yields.) -/
theorem scrub_marker_names_key_counterexample :
    mkDefaultScrubber none = .ok ⟨SENSITIVE_PATTERNS⟩ ∧
    scrub_attributes ⟨SENSITIVE_PATTERNS⟩ [("my_apikey123", .str "v")] =
      [("my_apikey123", .str "[Scrubbed due to my_apikey123]")] ∧
    ¬ ∃ p ∈ SENSITIVE_PATTERNS,
        ("[Scrubbed due to my_apikey123]" : String) =
          "[Scrubbed due to " ++ p ++ "]" := by
  refine ⟨rfl, rfl, ?_⟩
  decide

/-- C4 (amended): scrubbing processes each key as the spec says — with
the one correction that the redaction marker names the searched key
itself (the `match.string` of the regex match), not the offending
pattern class: if the key matches the compiled sensitive-pattern regex
the value becomes `[Scrubbed due to <key>]`; otherwise a nested map is
scrubbed recursively; a list has only its map-typed elements scrubbed
recursively, scalar elements passing through; any other value passes
through unchanged. -/
theorem scrub_attributes_matches_spec (sc : DefaultScrubber) (m : AttrMap) :
    scrub_attributes sc m = scrubSpecMap sc m := by
  match m with
  | [] => rfl
  | x :: rest =>
    show scrubMap sc (x :: rest) = _
    exact scrubMap_eq_spec sc (x :: rest)

/-- C5: Scrubbing is idempotent: for every attribute map and fixed
pattern set, scrubbing an already-scrubbed map returns a map equal to
the input, with no further redaction. -/
theorem scrub_attributes_idempotent (sc : DefaultScrubber) (m : AttrMap) :
    scrub_attributes sc (scrub_attributes sc m) = scrub_attributes sc m := by
  match m with
  | [] => rfl
  | x :: rest =>
    show scrub_attributes sc (scrubMap sc (x :: rest)) = scrubMap sc (x :: rest)
    have hshape : ∃ y ys, scrubMap sc (x :: rest) = y :: ys := by
      obtain ⟨k, v⟩ := x
      exact ⟨(k, if isSensitiveKey sc k then .str (redactionMarker sc k)
          else scrubValForKey sc v), scrubMap sc rest,
        by simp only [scrubMap]⟩
    obtain ⟨y, ys, hy⟩ := hshape
    rw [hy]
    show scrubMap sc (y :: ys) = y :: ys
    rw [← hy]
    exact scrubMap_idem sc (x :: rest)

/-- C6: Construction with an extra sensitive pattern in which the
protected regex finds a match fails immediately with the configuration
error (naming some offending extra pattern); construction whose extras
all pass the protected check succeeds and extends the sensitive set; and
every successfully constructed scrubber has a sensitive set disjoint
from the protected patterns (no sensitive pattern is matched by the
protected regex). -/
theorem scrubber_construction_protected :
    (∀ es a, a ∈ es → regexAltSearch PROTECTED_PATTERNS a = true →
      ∃ a0, mkDefaultScrubber (some es) = .error (.protectedPattern a0) ∧
        a0 ∈ es ∧ regexAltSearch PROTECTED_PATTERNS a0 = true) ∧
    (∀ es, es ≠ [] → (∀ a ∈ es, regexAltSearch PROTECTED_PATTERNS a = false) →
      mkDefaultScrubber (some es) = .ok ⟨SENSITIVE_PATTERNS ++ es⟩) ∧
    (∀ extra sc, mkDefaultScrubber extra = .ok sc →
      ∀ p ∈ sc.patterns, regexAltSearch PROTECTED_PATTERNS p = false) := by
  have hdef : ∀ p ∈ SENSITIVE_PATTERNS,
      regexAltSearch PROTECTED_PATTERNS p = false := by decide
  refine ⟨?_, ?_, ?_⟩
  · intro es a ha hpa
    have hne : es.isEmpty = false := by
      cases es with
      | nil => cases ha
      | cons x xs => rfl
    have hsome : (es.find? (fun a => regexAltSearch PROTECTED_PATTERNS a)).isSome := by
      rw [List.find?_isSome]
      exact ⟨a, ha, by simpa using hpa⟩
    obtain ⟨a0, ha0⟩ := Option.isSome_iff_exists.mp hsome
    refine ⟨a0, ?_, List.mem_of_find?_eq_some ha0, by
      simpa using List.find?_some ha0⟩
    simp only [mkDefaultScrubber, hne, Bool.false_eq_true, if_false, ha0]
  · intro es hne hall
    have hnone : es.find? (fun a => regexAltSearch PROTECTED_PATTERNS a) = none := by
      rw [List.find?_eq_none]
      intro a ha
      simp [hall a ha]
    have hempty : es.isEmpty = false := by
      cases es with
      | nil => exact absurd rfl hne
      | cons x xs => rfl
    simp only [mkDefaultScrubber, hempty, Bool.false_eq_true, if_false, hnone]
  · intro extra sc hok p hp
    match extra with
    | none =>
      simp only [mkDefaultScrubber, Except.ok.injEq] at hok
      subst hok
      exact hdef p hp
    | some es =>
      by_cases hempty : es.isEmpty
      · simp only [mkDefaultScrubber, hempty, if_true, Except.ok.injEq] at hok
        subst hok
        exact hdef p hp
      · simp only [mkDefaultScrubber, hempty, if_false] at hok
        rcases hfind : es.find? (fun a => regexAltSearch PROTECTED_PATTERNS a) with _ | a0
        · rw [hfind] at hok
          simp only [Bool.false_eq_true, if_false, Except.ok.injEq] at hok
          subst hok
          simp only [List.mem_append] at hp
          rcases hp with hp | hp
          · exact hdef p hp
          · have := List.find?_eq_none.mp hfind p hp
            simpa using this
        · rw [hfind] at hok
          cases hok

theorem scrubber_construction_protected_witness :
    mkDefaultScrubber (some ["spinal_id"]) =
      .error (.protectedPattern "spinal_id") ∧
    mkDefaultScrubber (some ["ssn"]) =
      .ok ⟨SENSITIVE_PATTERNS ++ ["ssn"]⟩ := by
  obtain ⟨h1, h2, _⟩ := scrubber_construction_protected
  obtain ⟨a0, he, hmem, _⟩ :=
    h1 ["spinal_id"] "spinal_id" (by simp) (by decide)
  have ha0 : a0 = "spinal_id" := by simpa using hmem
  refine ⟨ha0 ▸ he, h2 ["ssn"] (by simp) ?_⟩
  intro a ha
  have : a = "ssn" := by simpa using ha
  subst this
  decide

/-- Exceptions `safe_decode` could propagate in the embedding. -/
inductive DecodeErr : Type
  | unicodeDecodeError : DecodeErr
deriving DecidableEq, Repr

/-- `safe_decode` (exporter.py 206–226): UTF-8 strict, on failure
Windows-1252 strict, on failure Latin-1 with replacement. -/
def safe_decode (bs : List Nat) : Except DecodeErr (List Nat) :=
  match utf8Decode bs with
  | some cps => .ok cps
  | none =>
    match cp1252Decode bs with
    | some cps => .ok cps
    | none => .ok (latin1DecodeReplace bs)

/-- C1: The batch queue is a bounded FIFO with capacity `max_queue_size`:
its length never exceeds `max_queue_size`; enqueuing into a full queue
discards the newest incoming span and keeps the queue unchanged
(drop-newest); and enqueuing `max_queue_size + k` spans (k > 0) into an
otherwise-unflushed (initially empty, never drained) queue leaves exactly
the first `max_queue_size` spans resident. -/
theorem batch_queue_bounded_drop_newest {α : Type} (cap : Nat) (q : List α)
    (s : α) (ss : List α) (k : Nat)
    (hq : q.length ≤ cap) (hk : 0 < k) (hss : ss.length = cap + k) :
    (enqueue cap q s).length ≤ cap ∧
    (q.length = cap → enqueue cap q s = q) ∧
    enqueueAll cap [] ss = ss.take cap ∧
    (enqueueAll cap [] ss).length = cap := by
  have hall : enqueueAll cap [] ss = ss.take cap := by
    have := enqueueAll_eq_append_take cap ss [] (by simp)
    simpa using this
  refine ⟨enqueue_length_le cap q s hq, fun hfull => ?_, hall, ?_⟩
  · unfold enqueue; exact if_pos hfull
  · rw [hall, List.length_take, hss]
    omega

theorem batch_queue_bounded_drop_newest_witness :
    (enqueue 2 [1, 2] 3).length ≤ 2 ∧
    enqueue 2 [1, 2] 3 = [1, 2] ∧
    enqueueAll 2 [] [10, 20, 30] = [10, 20] ∧
    (enqueueAll 2 [] [10, 20, 30]).length = 2 := by
  have h := batch_queue_bounded_drop_newest 2 [1, 2] 3 [10, 20, 30] 1
    (by decide) (by decide) (by decide)
  exact ⟨h.1, h.2.1 (by decide), h.2.2.1, h.2.2.2⟩

/-- C3: For every input byte sequence, `safe_decode` returns a string (an
`.ok` value) and never raises: it first attempts strict UTF-8 decoding, on
failure attempts strict Windows-1252 decoding, and on failure falls back
to Latin-1 decoding with substitution, which succeeds for all 256 byte
values (each byte maps to the code point of the same value). -/
theorem safe_decode_total_fallback (bs : List Nat) :
    (∃ cps, safe_decode bs = .ok cps) ∧
    (∀ cps, utf8Decode bs = some cps → safe_decode bs = .ok cps) ∧
    (∀ cps, utf8Decode bs = none → cp1252Decode bs = some cps →
      safe_decode bs = .ok cps) ∧
    (utf8Decode bs = none → cp1252Decode bs = none →
      safe_decode bs = .ok (latin1DecodeReplace bs)) ∧
    (∀ b, b < 256 → latin1DecodeReplace [b] = [b]) := by
  refine ⟨?_, ?_, ?_, ?_, fun _ _ => rfl⟩
  · rcases hu : utf8Decode bs with _ | cps
    · rcases hc : cp1252Decode bs with _ | cps
      · exact ⟨latin1DecodeReplace bs, by simp [safe_decode, hu, hc]⟩
      · exact ⟨cps, by simp [safe_decode, hu, hc]⟩
    · exact ⟨cps, by simp [safe_decode, hu]⟩
  · intro cps hu; simp [safe_decode, hu]
  · intro cps hu hc; simp [safe_decode, hu, hc]
  · intro hu hc; simp [safe_decode, hu, hc]

theorem safe_decode_total_fallback_witness :
    safe_decode [0xC3] = .ok [0xC3] :=
  (safe_decode_total_fallback [0xC3]).2.2.1 [0xC3] (by decide) (by decide)

/-! ## Admission filter (processor.py)

`SpinalSpanProcessor._get_span_type` / `_should_process` / `on_end`.
Python exceptions that these paths can raise are modelled explicitly. -/

/-- Python exceptions relevant to the embedded code paths. -/
inductive PyExc where
  | indexError
  | typeError
  | valueError (msg : String)
  | keyError
  | notImplementedError
deriving DecidableEq

/-- `SpanType` enum (processor.py 20–25). -/
inductive SpanType where
  | genAI
  | httpx
  | unknown
deriving DecidableEq

/-- The slice of a `ReadableSpan` that the processor consults, plus the
span name (used by the spec-side admission contract). -/
structure PSpan where
  hasInstrumentationInfo : Bool
  instrumentationScopeName : String
  name : String
  attributes : List (String × AttrValue)

/-- `str.split(".")` on a character list. -/
def splitDots : List Char → List (List Char)
  | [] => [[]]
  | '.' :: r => [] :: splitDots r
  | c :: r =>
    match splitDots r with
    | h :: t => (c :: h) :: t
    | [] => [[c]]

def prefixChars : List Char → List Char → Bool
  | [], _ => true
  | _ :: _, [] => false
  | c :: cs, x :: xs => c == x && prefixChars cs xs

def attrGet : List (String × AttrValue) → String → Option AttrValue
  | [], _ => none
  | (k, v) :: rest, key => if k = key then some v else attrGet rest key

/-- `EXCLUDED_URLS` (processor.py 28–32); a Python set embedded as the
list of its elements. -/
def EXCLUDED_URLS : List String :=
  ["api.openai.com", "api.anthropic.com", "api.azure.com/openai"]

/-- Split at the first colon, when present. -/
def splitOnceColon : List Char → Option (List Char × List Char)
  | [] => none
  | ':' :: r => some ([], r)
  | c :: r =>
    match splitOnceColon r with
    | some (a, b) => some (c :: a, b)
    | none => none

def isSchemeChar (c : Char) : Bool :=
  c.isAlphanum || c = '+' || c = '-' || c = '.'

/-- Strip a leading `scheme:` as `urllib.parse.urlsplit` does: only when
the part before the first colon is non-empty, starts with a letter and
consists of scheme characters. -/
def urlAfterScheme (l : List Char) : List Char :=
  match splitOnceColon l with
  | some (before, after) =>
    match before with
    | [] => l
    | c :: _ => if c.isAlpha && before.all isSchemeChar then after else l
  | none => l

/-- `urlparse(u).netloc`: present only after a `//`, extending to the
next `/`, `?` or `#`. -/
def urlNetloc (u : String) : String :=
  match urlAfterScheme u.data with
  | '/' :: '/' :: rest =>
    String.mk (rest.takeWhile (fun c => c ≠ '/' && c ≠ '?' && c ≠ '#'))
  | _ => ""

/-- `SpinalSpanProcessor._get_span_type` (processor.py 69–86): when the
span has `_instrumentation_info`, take the third dot-segment of the
instrumentation scope name (IndexError when absent) and classify it;
otherwise `UNKNOWN`. -/
def getSpanType (s : PSpan) : Except PyExc SpanType :=
  if s.hasInstrumentationInfo then
    match (splitDots s.instrumentationScopeName.data).get? 2 with
    | none => .error .indexError
    | some lib =>
      if lib = "httpx".data then .ok .httpx
      else if lib = "anthropic".data then .ok .genAI
      else if lib = "openai".data then .ok .genAI
      else if lib = "openai_agents".data then .ok .genAI
      else .ok .unknown
  else .ok .unknown

/-- `SpinalSpanProcessor._should_process` (processor.py 88–102):
`UNKNOWN` spans are rejected; `HTTPX` spans are rejected when the netloc
of their `http.url` is in `EXCLUDED_URLS` (`urlparse` of an absent or
non-string attribute raises `TypeError`); everything else is
accepted. -/
def should_process (s : PSpan) : Except PyExc Bool :=
  match getSpanType s with
  | .error e => .error e
  | .ok t =>
    if t = SpanType.unknown then .ok false
    else if t = SpanType.httpx then
      match attrGet s.attributes "http.url" with
      | some (.str u) => .ok (!(EXCLUDED_URLS.contains (urlNetloc u)))
      | some _ => .error .typeError
      | none => .error .typeError
    else .ok true

/-- `SpinalSpanProcessor.on_end` (processor.py 116–122): a rejected span
returns with nothing emitted; an accepted span is emitted to the batch
processor. -/
def on_end (s : PSpan) : Except PyExc (Option PSpan) :=
  match should_process s with
  | .error e => .error e
  | .ok true => .ok (some s)
  | .ok false => .ok none

/-- Modelled from the spec: the admission contract of spec §4.2 —
"accept iff the record's name carries the system's reserved namespace
prefix AND (it carries a non-empty provider-identifier attribute OR it
carries an explicit billing/override marker attribute)".  The reserved
namespace prefix, the provider-identifier attribute `spinal.provider`
and the billing marker `is_billing_span` are the ones the rest of the
source attaches (`SPINAL_NAMESPACE` itself lives in
`sp_obs/_internal/__init__.py`, which is not under src/). -/
def specAdmissionAccept (s : PSpan) : Bool :=
  prefixChars "spinal".data s.name.data &&
    ((match attrGet s.attributes "spinal.provider" with
      | some (.str p) => !p.data.isEmpty
      | _ => false) ||
     (attrGet s.attributes "is_billing_span").isSome)

/-- A concrete span refuting C2: a gen-ai–instrumented span whose name
has no reserved prefix and which carries neither a provider-identifier
nor a billing marker. -/
def c2Span : PSpan :=
  { hasInstrumentationInfo := true
    instrumentationScopeName := "opentelemetry.instrumentation.anthropic"
    name := "anthropic.messages.create"
    attributes := [] }

/-- C2 (counterexample): the admission filter accepts `c2Span` (it is
emitted by `on_end`), yet the spec's contract rejects it — the filter
decides by instrumentation scope and excluded URLs, not by name prefix,
provider attribute or billing marker. -/
theorem admission_filter_counterexample :
    should_process c2Span = .ok true ∧
    on_end c2Span = .ok (some c2Span) ∧
    specAdmissionAccept c2Span = false :=
  ⟨rfl, rfl, rfl⟩

/-- C2 (amended): the admission filter at the record-ended transition
accepts by span type, not by name/provider/billing: spans of `UNKNOWN`
type are rejected; gen-ai spans are accepted; httpx spans with a string
`http.url` are accepted iff the URL's netloc is not in the excluded-URL
set; and `on_end` emits an accepted span and does nothing at all for a
rejected one. -/
theorem admission_filter_amended (s : PSpan) :
    (getSpanType s = .ok SpanType.unknown → should_process s = .ok false) ∧
    (getSpanType s = .ok SpanType.genAI → should_process s = .ok true) ∧
    (∀ u, getSpanType s = .ok SpanType.httpx →
      attrGet s.attributes "http.url" = some (.str u) →
      should_process s = .ok (!(EXCLUDED_URLS.contains (urlNetloc u)))) ∧
    (should_process s = .ok false → on_end s = .ok none) ∧
    (should_process s = .ok true → on_end s = .ok (some s)) := by
  refine ⟨?_, ?_, ?_, ?_, ?_⟩
  · intro h; simp [should_process, h]
  · intro h; simp [should_process, h]
  · intro u h hu; simp [should_process, h, hu]
  · intro h; simp [on_end, h]
  · intro h; simp [on_end, h]

theorem admission_filter_amended_witness :
    should_process c2Span = .ok true ∧ on_end c2Span = .ok (some c2Span) :=
  ⟨(admission_filter_amended c2Span).2.1 rfl,
   (admission_filter_amended c2Span).2.2.2.2
     ((admission_filter_amended c2Span).2.1 rfl)⟩

/-! ## Stream capture wrappers (core/httpx/sync_stream.py and
core/httpx/async_stream.py)

Both wrappers keep the same state: the chunks the wrapped stream has yet
to yield and the `_chunks` buffer, and both run the same
`_process_complete` when iteration exhausts: return early if no chunks
were buffered, otherwise emit one finalize event carrying the joined
buffer.  Neither class keeps a "finalized" flag, and `_chunks` is never
cleared. -/

structure StreamWrapper where
  source : List (List Nat)
  chunks : List (List Nat)

/-- A freshly constructed wrapper (`__init__`): `_chunks = []`. -/
def mkWrapper (cs : List (List Nat)) : StreamWrapper := ⟨cs, []⟩

/-- One complete run of the wrapper's iterator (`__iter__` /
`_aiter_wrapper`): every remaining source chunk is appended to
`_chunks` and yielded, then `_process_complete` runs — emitting one
finalize event with the concatenated buffer unless `_chunks` is empty.
Returns the new wrapper state and the finalize events emitted by this
run. -/
def iterateOnce (w : StreamWrapper) : StreamWrapper × List (List Nat) :=
  let w2 : StreamWrapper := ⟨[], w.chunks ++ w.source⟩
  (w2, if w2.chunks.isEmpty then [] else [w2.chunks.flatten])

/-- C8 (counterexample): a wrapper over a one-chunk stream emits a
finalize event on the first exhaustion and — having no finalized flag
and an uncleared buffer — a second one when end-of-stream is signaled
again, so the total is two events, not one. -/
theorem single_finalize_counterexample :
    ((iterateOnce (mkWrapper [[1]])).2.length +
      (iterateOnce (iterateOnce (mkWrapper [[1]])).1).2.length = 2) ∧
    ¬ ((iterateOnce (mkWrapper [[1]])).2.length +
      (iterateOnce (iterateOnce (mkWrapper [[1]])).1).2.length = 1) :=
  ⟨rfl, by decide⟩

/-- C8 (amended): a single exhaustion of the proxied stream emits
exactly one finalize event (carrying the concatenation of all chunks)
when at least one chunk was observed, and none when the stream was
empty; but the wrapper keeps no finalized flag, so signaling
end-of-stream a second time on the same wrapper emits a second finalize
event for a non-empty stream (the second signal is not a no-op). -/
theorem stream_wrapper_finalize (cs : List (List Nat)) :
    ((iterateOnce (mkWrapper cs)).2 =
      if cs.isEmpty then [] else [cs.flatten]) ∧
    ((iterateOnce (mkWrapper cs)).2.length +
      (iterateOnce (iterateOnce (mkWrapper cs)).1).2.length =
      if cs.isEmpty then 0 else 2) := by
  cases cs with
  | nil => exact ⟨rfl, rfl⟩
  | cons c rest =>
    refine ⟨?_, ?_⟩ <;>
      simp [iterateOnce, mkWrapper]

/-! ## JSON (`orjson.loads`)

A fuel-based recursive-descent JSON reader producing `AttrValue`.
Parse failures model `orjson.JSONDecodeError` (a `ValueError`).  One
modelling boundary: JSON numbers are read as integers; a fractional or
exponent part is rejected as unsupported (floating point is outside the
embedding, and no input under study contains it). -/

def isJsonWs (c : Char) : Bool :=
  c = ' ' || c = '\t' || c = '\n' || c = '\r'

def skipWs (l : List Char) : List Char := l.dropWhile isJsonWs

def isDigitChar (c : Char) : Bool := 48 ≤ c.toNat && c.toNat ≤ 57

def digitsToNat (acc : Nat) : List Char → Nat
  | [] => acc
  | c :: rest => digitsToNat (10 * acc + c.toNat - 48) rest

/-- Value of one hexadecimal digit (for `\uXXXX` escapes). -/
def hexDigitVal (c : Char) : Option Nat :=
  let n := c.toNat
  if 48 ≤ n && n ≤ 57 then some (n - 48)
  else if 97 ≤ n && n ≤ 102 then some (n - 87)
  else if 65 ≤ n && n ≤ 70 then some (n - 55)
  else none

/-- Combine four hexadecimal digits into a code point. -/
def hexQuad (a b c d : Char) : Option Nat :=
  match hexDigitVal a, hexDigitVal b, hexDigitVal c, hexDigitVal d with
  | some x, some y, some z, some w =>
    some (4096 * x + 256 * y + 16 * z + w)
  | _, _, _, _ => none

/-- The character a single-letter JSON escape denotes. -/
def jsonEscapeChar (e : Char) : Option Char :=
  match e with
  | '"' => some '"'
  | '\\' => some '\\'
  | '/' => some '/'
  | 'n' => some '\n'
  | 't' => some '\t'
  | 'r' => some '\r'
  | 'b' => some (Char.ofNat 8)
  | 'f' => some (Char.ofNat 12)
  | _ => none

/-- Read the body of a JSON string (the opening quote already
consumed); returns the characters and the remaining input. -/
def parseStrChars : List Char → Except PyExc (List Char × List Char)
  | [] => .error (.valueError "unterminated string")
  | '"' :: r => .ok ([], r)
  | '\\' :: 'u' :: r =>
    (match r with
     | h1 :: h2 :: h3 :: h4 :: r2 =>
       match hexQuad h1 h2 h3 h4 with
       | some n =>
         (parseStrChars r2).map (fun p => (Char.ofNat n :: p.1, p.2))
       | none => .error (.valueError "bad unicode escape")
     | _ => .error (.valueError "bad unicode escape"))
  | '\\' :: e :: r =>
    (match jsonEscapeChar e with
     | some c => (parseStrChars r).map (fun p => (c :: p.1, p.2))
     | none => .error (.valueError "bad escape"))
  | c :: r => (parseStrChars r).map (fun p => (c :: p.1, p.2))

/-- Read a natural number literal; fractional or exponent parts are
outside the model. -/
def parseJsonNat (l : List Char) : Except PyExc (Nat × List Char) :=
  let ds := l.takeWhile isDigitChar
  let rest := l.dropWhile isDigitChar
  if ds.isEmpty then .error (.valueError "expected digit")
  else
    match rest with
    | '.' :: _ => .error (.valueError "number form outside model")
    | 'e' :: _ => .error (.valueError "number form outside model")
    | 'E' :: _ => .error (.valueError "number form outside model")
    | _ => .ok (digitsToNat 0 ds, rest)

mutual
/-- Read one JSON value. -/
def parseJsonValue : Nat → List Char → Except PyExc (AttrValue × List Char)
  | 0, _ => .error (.valueError "fuel")
  | fuel + 1, l =>
    match skipWs l with
    | [] => .error (.valueError "unexpected eof")
    | '{' :: rest => parseJsonObj fuel rest
    | '[' :: rest => parseJsonArr fuel rest
    | '"' :: rest =>
      (parseStrChars rest).map (fun p => (.str (String.mk p.1), p.2))
    | 't' :: 'r' :: 'u' :: 'e' :: rest => .ok (.bool true, rest)
    | 'f' :: 'a' :: 'l' :: 's' :: 'e' :: rest => .ok (.bool false, rest)
    | 'n' :: 'u' :: 'l' :: 'l' :: rest => .ok (.null, rest)
    | '-' :: rest =>
      match parseJsonNat rest with
      | .ok (n, r) => .ok (.int (-(n : Int)), r)
      | .error e => .error e
    | l2 => parseJsonNat l2 |>.map (fun p => (.int (p.1 : Int), p.2))

/-- Read the members of a JSON object after its `{`. -/
def parseJsonObj (fuel : Nat) (l : List Char) :
    Except PyExc (AttrValue × List Char) :=
  match fuel with
  | 0 => .error (.valueError "fuel")
  | fuel + 1 =>
    match skipWs l with
    | '}' :: r => .ok (.dict [], r)
    | _ => parseJsonMembers fuel l []

/-- Read `"key": value (, "key": value)* }`, at least one member. -/
def parseJsonMembers (fuel : Nat) (l : List Char)
    (acc : List (String × AttrValue)) :
    Except PyExc (AttrValue × List Char) :=
  match fuel with
  | 0 => .error (.valueError "fuel")
  | fuel + 1 =>
    match skipWs l with
    | '"' :: r =>
      match parseStrChars r with
      | .error e => .error e
      | .ok (kcs, r2) =>
        match skipWs r2 with
        | ':' :: r3 =>
          match parseJsonValue fuel r3 with
          | .error e => .error e
          | .ok (v, r4) =>
            match skipWs r4 with
            | ',' :: r5 =>
              parseJsonMembers fuel r5 (acc ++ [(String.mk kcs, v)])
            | '}' :: r5 => .ok (.dict (acc ++ [(String.mk kcs, v)]), r5)
            | _ => .error (.valueError "expected comma or brace")
        | _ => .error (.valueError "expected colon")
    | _ => .error (.valueError "expected key")

/-- Read the elements of a JSON array after its `[`. -/
def parseJsonArr (fuel : Nat) (l : List Char) :
    Except PyExc (AttrValue × List Char) :=
  match fuel with
  | 0 => .error (.valueError "fuel")
  | fuel + 1 =>
    match skipWs l with
    | ']' :: r => .ok (.list [], r)
    | _ => parseJsonItems fuel l []

/-- Read `value (, value)* ]`, at least one element. -/
def parseJsonItems (fuel : Nat) (l : List Char) (acc : List AttrValue) :
    Except PyExc (AttrValue × List Char) :=
  match fuel with
  | 0 => .error (.valueError "fuel")
  | fuel + 1 =>
    match parseJsonValue fuel l with
    | .error e => .error e
    | .ok (v, r) =>
      match skipWs r with
      | ',' :: r2 => parseJsonItems fuel r2 (acc ++ [v])
      | ']' :: r2 => .ok (.list (acc ++ [v]), r2)
      | _ => .error (.valueError "expected comma or bracket")
end

/-- `orjson.loads` on a text: one JSON value followed only by
whitespace. -/
def jsonParse (s : String) : Except PyExc AttrValue :=
  match parseJsonValue (2 * s.data.length + 4) s.data with
  | .error e => .error e
  | .ok (v, rest) =>
    if (skipWs rest).isEmpty then .ok v
    else .error (.valueError "trailing data")

/-! ## OpenAI provider (core/providers/openai.py)

`handle_event_stream` reassembles server-sent events and extracts the
terminal `response.completed` record; `parse_response_attributes`
strips model output.  Python's dynamic typing is embedded with `Except`:
paths where the source would raise on an ill-shaped value return an
error (the precise Python exception class is collapsed to `typeError`;
downstream only ok-versus-raise is observable). -/

/-- Python `str.strip()` whitespace set. -/
def isPyWs (c : Char) : Bool :=
  c = ' ' || c = '\t' || c = '\n' || c = '\r' ||
  c = Char.ofNat 11 || c = Char.ofNat 12

def pyStrip (l : List Char) : List Char :=
  ((l.dropWhile isPyWs).reverse.dropWhile isPyWs).reverse

/-- Python `str.split(sep)` for a one-character separator. -/
def splitChar (sep : Char) : List Char → List (List Char)
  | [] => [[]]
  | c :: r =>
    if c = sep then [] :: splitChar sep r
    else
      match splitChar sep r with
      | h :: t => (c :: h) :: t
      | [] => [[c]]

/-- Python truthiness of an attribute value. -/
def pyTruthy : AttrValue → Bool
  | .null => false
  | .str s => !s.data.isEmpty
  | .int n => n ≠ 0
  | .bool b => b
  | .bytes bs => !bs.isEmpty
  | .list xs => !xs.isEmpty
  | .dict m => !m.isEmpty

/-- The `current_event` dict of `handle_event_stream`: at most an
`"event"` entry and a `"data"` entry. -/
structure SSEEvent where
  eventName : Option String
  data : Option AttrValue

/-- Python truthiness of the `current_event` dict. -/
def sseTruthy (e : SSEEvent) : Bool := e.eventName.isSome || e.data.isSome

/-- `isinstance(event.get("data"), dict)`. -/
def isDataDict (e : SSEEvent) : Bool :=
  match e.data with
  | some (.dict _) => true
  | _ => false

/-- The `for line in lines` loop of `handle_event_stream`
(openai.py 32–48), including the trailing `if current_event` append. -/
def sseLoop : List (List Char) → SSEEvent → List SSEEvent
  | [], cur => if sseTruthy cur then [cur] else []
  | line :: rest, cur =>
    if prefixChars "event:".data line then
      let newEv : SSEEvent :=
        { eventName := some (String.mk (pyStrip (line.drop 6))), data := none }
      if sseTruthy cur then cur :: sseLoop rest newEv else sseLoop rest newEv
    else if prefixChars "data:".data line then
      let ds := pyStrip (line.drop 5)
      let d :=
        match jsonParse (String.mk ds) with
        | .ok v => v
        | .error _ => .str (String.mk ds)
      sseLoop rest { cur with data := some d }
    else if line.isEmpty && sseTruthy cur then
      cur :: sseLoop rest { eventName := none, data := none }
    else sseLoop rest cur

/-- Remove a key from a dict (`dict.pop(k, None)` discarding the
value). -/
def dictPop (m : List (String × AttrValue)) (k : String) :
    List (String × AttrValue) :=
  m.filter (fun kv => !(kv.1 == k))

/-- In-place update of an existing key, preserving insertion order
(appending when absent). -/
def dictSet : List (String × AttrValue) → String → AttrValue →
    List (String × AttrValue)
  | [], k, v => [(k, v)]
  | (k0, v0) :: rest, k, v =>
    if k0 == k then (k0, v) :: rest else (k0, v0) :: dictSet rest k v

/-- `c.pop("text", None)` on each element of an output's `content`
(openai.py 18–20); a non-dict element has no `.pop` and raises. -/
def stripTextFromContent (c : AttrValue) : Except PyExc AttrValue :=
  match c with
  | .dict d => .ok (.dict (dictPop d "text"))
  | _ => .error .typeError

/-- One iteration of the `for output in response_attributes.get("output",
[])` loop (openai.py 17–21): drop `text` from each content part and drop
`result`. -/
def processOutput (out : AttrValue) : Except PyExc AttrValue :=
  match out with
  | .dict od =>
    match attrGet od "content" with
    | none => .ok (.dict (dictPop od "result"))
    | some (.list cs) =>
      (cs.mapM stripTextFromContent).map
        (fun cs2 => .dict (dictPop (dictSet od "content" (.list cs2)) "result"))
    | some (.dict d) =>
      if d.isEmpty then .ok (.dict (dictPop od "result"))
      else .error .typeError
    | some (.str s) =>
      if s.data.isEmpty then .ok (.dict (dictPop od "result"))
      else .error .typeError
    | some _ => .error .typeError
  | _ => .error .typeError

namespace OpenAIProvider

/-- `OpenAIProvider.parse_response_attributes` (openai.py 10–22): pop
`choices`, strip `text`/`result` from every entry of `output`, return
the map. -/
def parse_response_attributes (v : AttrValue) : Except PyExc AttrValue :=
  match v with
  | .dict m =>
    let m1 := dictPop m "choices"
    match attrGet m1 "output" with
    | some (.list outs) =>
      (outs.mapM processOutput).map
        (fun outs2 => .dict (dictSet m1 "output" (.list outs2)))
    | some (.dict d) =>
      if d.isEmpty then .ok (.dict m1) else .error .typeError
    | some (.str s) =>
      if s.data.isEmpty then .ok (.dict m1) else .error .typeError
    | some _ => .error .typeError
    | none => .ok (.dict m1)
  | _ => .error .typeError

/-- `OpenAIProvider.handle_event_stream` (openai.py 24–63): strip and
split the text into lines; accumulate `event:`/`data:` records,
terminating a record on a blank line or on a new `event:` line; then
return the `response` field of the latest `response.completed` record
with dict data, or reconstruct an `output` list from
`response.output_item.done` records. -/
def handle_event_stream (event_stream : String) : AttrValue :=
  let lines := splitChar '\n' (pyStrip event_stream.data)
  let events := sseLoop lines { eventName := none, data := none }
  match events.reverse.find?
      (fun e => e.eventName == some "response.completed" && isDataDict e) with
  | some e =>
    match e.data with
    | some (.dict m) => (attrGet m "response").getD (.dict [])
    | _ => .dict []
  | none =>
    .dict [("output", .list (events.foldr
      (fun e acc =>
        (if e.eventName == some "response.output_item.done" then
           match e.data with
           | some (.dict m) =>
             match attrGet m "item" with
             | some item => if pyTruthy item then [item] else []
             | none => []
           | _ => []
         else []) ++ acc)
      []))]

end OpenAIProvider

/-- C9: For the SSE text `event: response.completed\ndata: {"response":
{"id": "r1"}}\n\n`, the OpenAI provider's `handle_event_stream` splits
the text into records, parses the data line as JSON, and returns exactly
the `response` field of the terminal `response.completed` record, the
map `{"id": "r1"}`. -/
theorem openai_sse_terminal_event :
    OpenAIProvider.handle_event_stream
        "event: response.completed\ndata: \x7b\"response\": \x7b\"id\": \"r1\"\x7d\x7d\n\n" =
      .dict [("id", .str "r1")] := rfl

/-! ## Decode/transform stage (exporter.py 111–196)

`SpinalSpanExporter.decode_request_binary_data` and
`decode_response_binary_data`.  Two external collaborators are passed as
explicit function arguments, in the style of the spec's registry-injection
note: `reg` stands for `get_provider` (core/providers/__init__.py) and
`gz` for `gzip.decompress`; the claims under study hold either for every
such function or under a stated hypothesis about its value at the one
input involved.  `gzip.decompress` outcomes distinguish the
`BadGzipFile` class, because the source's `except` clause catches
exactly that class and lets every other exception propagate. -/

/-- Outcome of a `gzip.decompress` call. -/
inductive GzipResult where
  | ok (data : List Nat)
  | badGzipFile
  | fails (e : PyExc)

/-- The four provider capabilities (core/providers/base.py), with
`Except` capturing paths where a capability raises. -/
structure Provider where
  parse_request_attributes : AttrValue → Except PyExc AttrValue
  parse_response_attributes : AttrValue → Except PyExc AttrValue
  parse_response_headers : List (String × AttrValue) →
    Except PyExc (List (String × AttrValue))
  handle_event_stream : String → Except PyExc AttrValue

/-- The concrete OpenAI provider instance (openai.py), with the base
class's default request-attribute identity and empty header parsing. -/
def openaiProvider : Provider :=
  { parse_request_attributes := fun v => .ok v
    parse_response_attributes := OpenAIProvider.parse_response_attributes
    parse_response_headers := fun _ => .ok []
    handle_event_stream := fun s => .ok (OpenAIProvider.handle_event_stream s) }

/-- Substring containment (Python `needle in haystack` on str). -/
def containsChars (n : List Char) : List Char → Bool
  | [] => n.isEmpty
  | c :: t => prefixChars n (c :: t) || containsChars n t

/-- The audio content types of exporter.py 167–170. -/
def audioTypes : List String :=
  ["audio/mpeg", "audio/mp3", "audio/wav", "audio/ogg", "audio/pcm",
   "audio/flac"]

/-- `safe_decode` as used by the pipeline, building the decoded text
(the error branch is unreachable: `safe_decode` always returns `.ok`). -/
def safeDecodeString (bs : List Nat) : String :=
  match safe_decode bs with
  | .ok cps => String.mk (cps.map Char.ofNat)
  | .error _ => ""

/-- `str(e)` for the `parse_error` attribute. -/
def excMsg : PyExc → String
  | .indexError => "IndexError"
  | .typeError => "TypeError"
  | .valueError m => m
  | .keyError => "KeyError"
  | .notImplementedError => "NotImplementedError"

/-- `orjson.loads` on a byte buffer: the buffer must be valid UTF-8. -/
def jsonParseBytes (bs : List Nat) : Except PyExc AttrValue :=
  match utf8Decode bs with
  | some cps => jsonParse (String.mk (cps.map Char.ofNat))
  | none => .error (.valueError "invalid utf-8")

/-- Python `a | b` on dicts (also `a.update(b)`): keys of `a` in order
with `b`'s value on collision, then the keys only in `b`. -/
def dictMerge (a b : List (String × AttrValue)) :
    List (String × AttrValue) :=
  (a.map (fun kv => (kv.1, (attrGet b kv.1).getD kv.2))) ++
    b.filter (fun kv => (attrGet a kv.1).isNone)

/-- The image-generation guard of exporter.py 136–139: an input item
whose `id` is a string starting with `ig_` loses its `result` entry
(`del` raises `KeyError` when the entry is absent); an item without a
truthy `id` passes through; ill-shaped items raise. -/
def stripImageResult (i : AttrValue) : Except PyExc AttrValue :=
  match i with
  | .dict d =>
    match attrGet d "id" with
    | some (.str idv) =>
      if !idv.data.isEmpty && prefixChars "ig_".data idv.data then
        match attrGet d "result" with
        | some _ => .ok (.dict (dictPop d "result"))
        | none => .error .keyError
      else .ok (.dict d)
    | some v2 => if pyTruthy v2 then .error .typeError else .ok (.dict d)
    | none => .ok (.dict d)
  | _ => .error .typeError

/-- `SpinalSpanExporter.decode_request_binary_data` (exporter.py
111–144): pop the reserved request-buffer key; a falsy buffer
(absent or empty) returns the remaining attributes unchanged; otherwise
parse the buffer as JSON, strip image-generation results from a
list-typed `input` field, look the provider up and merge its parsed
request attributes over the span's. -/
def decode_request_binary_data
    (reg : Option AttrValue → Except PyExc Provider)
    (attributes : List (String × AttrValue)) :
    Except PyExc (List (String × AttrValue)) :=
  let raw := attrGet attributes "spinal.request.binary_data"
  let attrs1 := dictPop attributes "spinal.request.binary_data"
  match raw with
  | none => .ok attrs1
  | some v =>
    if !pyTruthy v then .ok attrs1
    else
      match v with
      | .bytes bs =>
        match jsonParseBytes bs with
        | .error e => .error e
        | .ok req =>
          match req with
          | .dict rm =>
            let strippedE : Except PyExc (List (String × AttrValue)) :=
              match attrGet rm "input" with
              | some (.list items) =>
                (items.mapM stripImageResult).map
                  (fun items2 => dictSet rm "input" (.list items2))
              | _ => .ok rm
            match strippedE with
            | .error e => .error e
            | .ok rm2 =>
              match reg (attrGet attrs1 "spinal.provider") with
              | .error e => .error e
              | .ok provider =>
                match provider.parse_request_attributes (.dict rm2) with
                | .error e => .error e
                | .ok (.dict pd) => .ok (dictMerge attrs1 pd)
                | .ok _ => .error .typeError
          | _ => .error .typeError
      | _ => .error .typeError

/-- The body of `decode_response_binary_data` downstream of the gzip
step (exporter.py 164–196): build structured attributes from the
(possibly decompressed) bytes by content type, run the provider's
response parsing, collect and parse the response-header sub-map, and
merge the three maps with body/header results taking precedence. -/
def processDecodedResponse (reg : Option AttrValue → Except PyExc Provider)
    (binary_data : List Nat) (attributes : List (String × AttrValue)) :
    Except PyExc (List (String × AttrValue)) :=
  match reg (attrGet attributes "spinal.provider") with
  | .error e => .error e
  | .ok provider =>
    match
      (match attrGet attributes "content-type" with
       | none => some ""
       | some (.str s) => some s
       | some _ => none) with
    | none => .error .typeError
    | some ct =>
      let baseAttrsE : Except PyExc AttrValue :=
        if audioTypes.any (fun a => containsChars a.data ct.data) then
          .ok (.dict [("audio_size_bytes", .int binary_data.length),
                      ("audio_format", .str ct)])
        else if containsChars "text/event-stream".data ct.data then
          provider.handle_event_stream (safeDecodeString binary_data)
        else if containsChars "application/json".data ct.data then
          match jsonParse (safeDecodeString binary_data) with
          | .ok v => .ok v
          | .error e =>
            .ok (.dict [("raw_content", .str (safeDecodeString binary_data)),
                        ("parse_error", .str (excMsg e)),
                        ("content_type", .str ct)])
        else .ok (.dict [])
      match baseAttrsE with
      | .error e => .error e
      | .ok ra0 =>
        match provider.parse_response_attributes ra0 with
        | .error e => .error e
        | .ok ra =>
          let hdrs := attributes.filter
            (fun kv => prefixChars "spinal.http.response.header.".data kv.1.data)
          let attrs2 := attributes.filter
            (fun kv => !(prefixChars "spinal.http.response.header.".data kv.1.data))
          match provider.parse_response_headers hdrs with
          | .error e => .error e
          | .ok ph =>
            match ra with
            | .dict rad => .ok (dictMerge (dictMerge attrs2 rad) ph)
            | _ => .error .typeError

/-- `SpinalSpanExporter.decode_response_binary_data` (exporter.py
146–196): pop the reserved response-buffer key; a falsy buffer returns
the remaining attributes unchanged; when `content-encoding` is `gzip`,
attempt decompression, recovering the original bytes on `BadGzipFile`
(any other exception propagates); then process downstream. -/
def decode_response_binary_data
    (reg : Option AttrValue → Except PyExc Provider)
    (gz : List Nat → GzipResult)
    (attributes : List (String × AttrValue)) :
    Except PyExc (List (String × AttrValue)) :=
  let raw := attrGet attributes "spinal.response.binary_data"
  let attrs1 := dictPop attributes "spinal.response.binary_data"
  match raw with
  | none => .ok attrs1
  | some v =>
    if !pyTruthy v then .ok attrs1
    else
      match v with
      | .bytes bs =>
        if (match attrGet attrs1 "content-encoding" with
            | some (.str s) => s == "gzip"
            | _ => false) then
          match gz bs with
          | .ok d => processDecodedResponse reg d attrs1
          | .badGzipFile => processDecodedResponse reg bs attrs1
          | .fails e => .error e
        else processDecodedResponse reg bs attrs1
      | _ => .error .typeError

/-- C7: when the attributes carry `content-encoding: gzip` but
decompressing the (non-empty) payload fails with `BadGzipFile` — the
payload is not actually gzip-compressed — the failure is recovered
locally: the span's decoding proceeds downstream on the original bytes
exactly as if they were already uncompressed, with no exception arising
from the decompression step, for every provider registry. -/
theorem gzip_resilience
    (reg : Option AttrValue → Except PyExc Provider)
    (gz : List Nat → GzipResult)
    (attrs : List (String × AttrValue)) (bs : List Nat)
    (hbs : attrGet attrs "spinal.response.binary_data" = some (.bytes bs))
    (hne : bs ≠ [])
    (henc : attrGet (dictPop attrs "spinal.response.binary_data")
      "content-encoding" = some (.str "gzip"))
    (hgz : gz bs = .badGzipFile) :
    decode_response_binary_data reg gz attrs =
      processDecodedResponse reg bs
        (dictPop attrs "spinal.response.binary_data") := by
  have hbe : bs.isEmpty = false := by
    cases bs with
    | nil => exact absurd rfl hne
    | cons _ _ => rfl
  simp only [decode_response_binary_data, hbs, pyTruthy, hbe, henc, hgz,
    Bool.not_false, Bool.not_true, Bool.false_eq_true, if_false,
    beq_self_eq_true, if_true]

/-- The only-OpenAI slice of `get_provider` used to instantiate the
decode theorems at concrete inputs. -/
def openaiOnlyRegistry : Option AttrValue → Except PyExc Provider
  | some (.str s) =>
    if s = "openai" then .ok openaiProvider
    else .error (.valueError "Invalid provider name")
  | _ => .error (.valueError "Invalid provider name")

def c7Attrs : List (String × AttrValue) :=
  [("spinal.response.binary_data", .bytes [0x41, 0x42]),
   ("content-encoding", .str "gzip"),
   ("content-type", .str "application/octet-stream"),
   ("spinal.provider", .str "openai")]

theorem gzip_resilience_witness :
    decode_response_binary_data openaiOnlyRegistry
        (fun _ => .badGzipFile) c7Attrs =
      .ok [("content-encoding", .str "gzip"),
           ("content-type", .str "application/octet-stream"),
           ("spinal.provider", .str "openai")] := by
  have h := gzip_resilience openaiOnlyRegistry (fun _ => .badGzipFile)
    c7Attrs [0x41, 0x42] rfl (by decide) rfl rfl
  rw [h]
  rfl

/-- C10: an attribute map whose reserved binary-data key is bound to an
empty buffer decodes to the remaining attributes with just that key
removed: the result is the same for every provider registry, every
decompressor and every buffer content — no JSON parsing, provider
lookup, decompression, header collection or merging takes place, exactly
as for an absent buffer. -/
theorem decode_empty_buffer_removed
    (reg1 reg2 : Option AttrValue → Except PyExc Provider)
    (gz : List Nat → GzipResult)
    (attrs1 attrs2 : List (String × AttrValue))
    (h1 : attrGet attrs1 "spinal.request.binary_data" = some (.bytes []))
    (h2 : attrGet attrs2 "spinal.response.binary_data" = some (.bytes [])) :
    decode_request_binary_data reg1 attrs1 =
      .ok (dictPop attrs1 "spinal.request.binary_data") ∧
    decode_response_binary_data reg2 gz attrs2 =
      .ok (dictPop attrs2 "spinal.response.binary_data") := by
  constructor
  · simp [decode_request_binary_data, h1, pyTruthy]
  · simp [decode_response_binary_data, h2, pyTruthy]

theorem decode_empty_buffer_removed_witness :
    decode_request_binary_data (fun _ => .error (.valueError "unreached"))
        [("spinal.request.binary_data", .bytes []), ("a", .int 1)] =
      .ok [("a", .int 1)] ∧
    decode_response_binary_data (fun _ => .error (.valueError "unreached"))
        (fun _ => .fails .typeError)
        [("spinal.response.binary_data", .bytes []), ("b", .str "x")] =
      .ok [("b", .str "x")] := by
  have h := decode_empty_buffer_removed
    (fun _ => .error (.valueError "unreached"))
    (fun _ => .error (.valueError "unreached"))
    (fun _ => .fails .typeError)
    [("spinal.request.binary_data", .bytes []), ("a", .int 1)]
    [("spinal.response.binary_data", .bytes []), ("b", .str "x")]
    rfl rfl
  exact ⟨h.1.trans (by rfl), h.2.trans (by rfl)⟩

end SpObs
